import Mathlib

/-!
Shallow embedding of the code snippets of a TypeScript lesson corpus
(courses on basic types, function overloads, generic constraints, hybrid
types and type predicates), together with proofs of the properties the
lessons state about them.

TypeScript static types are erased at runtime, so the runtime behaviour of
every snippet is plain JavaScript.  Runtime values are modelled by `JSVal`.
The numbers appearing in the lessons are all integer-valued, so JavaScript
numbers are modelled as `JSNum`: either an integer or NaN.  The built-in
`Number(...)` conversion is modelled (`jsNumber`) for the strings that
occur in the lessons: nonempty strings of decimal digits convert to the
denoted natural number, and every other string that occurs (such as
"oh no") converts to NaN.
-/

/-- A JavaScript number as it occurs in the lessons: an integer, or NaN. -/
inductive JSNum where
  | nan : JSNum
  | int (i : Int) : JSNum
deriving DecidableEq

/-- A JavaScript runtime value of the snippets: number, string, undefined
or boolean. -/
inductive JSVal where
  | num (n : JSNum) : JSVal
  | str (s : String) : JSVal
  | undef : JSVal
  | boolV (b : Bool) : JSVal
deriving DecidableEq

/-- The JavaScript `typeof` operator on the modelled values. -/
def typeof : JSVal → String
  | .num _ => "number"
  | .str _ => "string"
  | .undef => "undefined"
  | .boolV _ => "boolean"

/-- JavaScript multiplication of numbers: NaN propagates. -/
def jsNumMul : JSNum → JSNum → JSNum
  | .int a, .int b => .int (a * b)
  | _, _ => .nan

/-- JavaScript addition of numbers: NaN propagates. -/
def jsNumAdd : JSNum → JSNum → JSNum
  | .int a, .int b => .int (a + b)
  | _, _ => .nan

/-- The numeric value of a decimal digit character, if it is one. -/
def digitVal? (c : Char) : Option Nat :=
  if 48 ≤ c.toNat ∧ c.toNat ≤ 57 then some (c.toNat - 48) else none

/-- Reads a list of decimal digit characters, most significant first,
accumulating the value; any non-digit character makes the read fail. -/
def parseDigitsAux : List Char → Nat → Option Nat
  | [], acc => some acc
  | c :: cs, acc =>
    match digitVal? c with
    | some d => parseDigitsAux cs (10 * acc + d)
    | none => none

/-- Reads a nonempty string of decimal digits as a natural number. -/
def parseNat? (s : String) : Option Nat :=
  if s.data.isEmpty then none else parseDigitsAux s.data 0

/-- Renders a natural number in decimal, as JavaScript `toString()` does. -/
def renderNat (n : Nat) : String :=
  if n = 0 then "0" else String.mk (((Nat.digits 10 n).map Nat.digitChar).reverse)

/-- JavaScript `toString()` on the modelled numbers: decimal rendering of
integers, and "NaN" for NaN. -/
def JSNum.render : JSNum → String
  | .nan => "NaN"
  | .int i => if i < 0 then "-" ++ renderNat i.natAbs else renderNat i.natAbs

/-- The JavaScript built-in `Number(...)` on strings, modelled for the
strings the lessons feed it: a nonempty string of decimal digits denotes
that natural number, and any other string (such as "oh no") is NaN.
(Other JavaScript inputs, such as the empty string or signed or fractional
literals, never occur in the corpus and are not modelled.) -/
def jsNumber (s : String) : JSNum :=
  match parseNat? s with
  | some n => .int n
  | none => .nan

/-- The JavaScript built-in `Number(...)` on arbitrary runtime values:
numbers are unchanged, strings are read with `jsNumber`, `undefined` is
NaN, booleans are 0 or 1. -/
def jsToNumber : JSVal → JSNum
  | .num m => m
  | .str s => jsNumber s
  | .undef => .nan
  | .boolV b => .int (if b then 1 else 0)

/-! ### Decimal rendering followed by parsing is the identity -/

theorem digitVal?_digitChar (d : Nat) (h : d < 10) :
    digitVal? (Nat.digitChar d) = some d := by
  interval_cases d <;> decide

theorem parseDigitsAux_map (ds : List Nat) (h : ∀ d ∈ ds, d < 10) :
    ∀ acc : Nat,
      parseDigitsAux (ds.map Nat.digitChar) acc =
        some (ds.foldl (fun a d => 10 * a + d) acc) := by
  induction ds with
  | nil => intro acc; rfl
  | cons d ds ih =>
    intro acc
    have hd : d < 10 := h d (List.mem_cons_self d ds)
    have hds : ∀ e ∈ ds, e < 10 := fun e he => h e (List.mem_cons_of_mem d he)
    simp only [List.map_cons, parseDigitsAux, digitVal?_digitChar d hd,
      List.foldl_cons]
    exact ih hds (10 * acc + d)

theorem foldr_eq_ofDigits (l : List Nat) :
    l.foldr (fun d a => 10 * a + d) 0 = Nat.ofDigits 10 l := by
  induction l with
  | nil => simp [Nat.ofDigits]
  | cons d l ih =>
    simp only [List.foldr_cons, ih, Nat.ofDigits_cons]
    omega

theorem parseNat?_renderNat (n : Nat) : parseNat? (renderNat n) = some n := by
  by_cases h0 : n = 0
  · subst h0; decide
  · have hne : Nat.digits 10 n ≠ [] := Nat.digits_ne_nil_iff_ne_zero.mpr h0
    have hdata :
        (renderNat n).data = ((Nat.digits 10 n).reverse).map Nat.digitChar := by
      simp [renderNat, h0, List.map_reverse]
    have hnonempty : (renderNat n).data.isEmpty = false := by
      rw [hdata]
      cases hD : Nat.digits 10 n with
      | nil => exact absurd hD hne
      | cons d ds => simp [hD, List.isEmpty_eq_false_iff_exists_mem]
    have hlt : ∀ d ∈ (Nat.digits 10 n).reverse, d < 10 := by
      intro d hd
      exact Nat.digits_lt_base (by omega) (List.mem_reverse.mp hd)
    rw [parseNat?, hnonempty]
    simp only [Bool.false_eq_true, if_false, hdata]
    rw [parseDigitsAux_map _ hlt 0, List.foldl_reverse, foldr_eq_ofDigits,
      Nat.ofDigits_digits]

theorem jsNumber_renderNat (n : Nat) : jsNumber (renderNat n) = .int n := by
  rw [jsNumber, parseNat?_renderNat]

theorem render_int_ofNat (n : Nat) :
    JSNum.render (.int (n : Int)) = renderNat n := by
  simp [JSNum.render]

/-! ### Basic types lesson: a let declaration under the TypeScript checker

The snippets `let sum: number = 1 + 1; sum;` and
(let sum: number = "any" + "thing"; sum;) are decided by the TypeScript
compiler, which is not part of the repository.  The fragment of it the
lessons exercise is modelled here. -/

/-- The TypeScript base types appearing in the basic-types lesson. -/
inductive Ty where
  | number : Ty
  | string : Ty
  | boolean : Ty
deriving DecidableEq

/-- The expressions appearing in the basic-types snippets: number
literals, string literals and the binary `+`. -/
inductive TExpr where
  | numLit (n : Int) : TExpr
  | strLit (s : String) : TExpr
  | add (a b : TExpr) : TExpr
deriving DecidableEq

/-- Modelled from the spec: the TypeScript compiler (absent from the
repository) infers a type for each snippet expression.  `+` of two
numbers is a number; `+` with a string operand is a string; any other
`+` does not type check. -/
def inferTy : TExpr → Option Ty
  | .numLit _ => some .number
  | .strLit _ => some .string
  | .add a b =>
    match inferTy a, inferTy b with
    | some .number, some .number => some .number
    | some .string, some _ => some .string
    | some _, some .string => some .string
    | _, _ => none

/-- A structured compiler diagnostic.  `notAssignable src tgt` stands for
the diagnostic text: Type (src) is not assignable to type (tgt). -/
inductive TypeErr where
  | notAssignable (src tgt : Ty) : TypeErr
  | untypeable : TypeErr
deriving DecidableEq

/-- Modelled from the spec: checking `let x: declared = e`.  The compiler
infers the type of `e` and requires it to be assignable to the declared
type; for the base types of these lessons assignability is equality.  On
failure it reports which type is not assignable to which. -/
def checkLetDecl (declared : Ty) (e : TExpr) : Except TypeErr Ty :=
  match inferTy e with
  | none => .error .untypeable
  | some t => if t = declared then .ok t else .error (.notAssignable t declared)

/-- JavaScript `+` on runtime values, for the value shapes the snippets
produce: number addition, and string concatenation when either operand is
a string (numbers are rendered before concatenating). -/
def jsAdd : JSVal → JSVal → Option JSVal
  | .num a, .num b => some (.num (jsNumAdd a b))
  | .str a, .str b => some (.str (a ++ b))
  | .str a, .num b => some (.str (a ++ b.render))
  | .num a, .str b => some (.str (a.render ++ b))
  | _, _ => none

/-- Runtime evaluation of the basic-types snippet expressions. -/
def evalT : TExpr → Option JSVal
  | .numLit n => some (.num (.int n))
  | .strLit s => some (.str s)
  | .add a b =>
    match evalT a, evalT b with
    | some va, some vb => jsAdd va vb
    | _, _ => none

/-- The expression of the snippet `let sum: number = 1 + 1; sum;`. -/
def sumExpr : TExpr := .add (.numLit 1) (.numLit 1)

/-- The expression of the snippet (let sum: number = "any" + "thing";). -/
def anyThingExpr : TExpr := .add (.strLit "any") (.strLit "thing")

namespace FunctionOverloads

/-!  Lesson 10-function-overloads.ts.  All three `double` functions share
one body shape; the overload signatures are static only and erase. -/

/-- The correct overloaded `double` (lesson lines 54-63): on a number it
returns `n * 2`; otherwise it computes `Number(n) * 2` and renders it
with `.toString()`. -/
def double (n : JSVal) : JSVal :=
  if typeof n = "number" then
    .num (jsNumMul (jsToNumber n) (.int 2))
  else
    .str (JSNum.render (jsNumMul (jsToNumber n) (.int 2)))

/-- The buggy overloaded `double` (lesson lines 118-127): the string
branch forgets `.toString()` and returns the number `Number(n) * 2`. -/
def doubleBuggy (n : JSVal) : JSVal :=
  if typeof n = "number" then
    .num (jsNumMul (jsToNumber n) (.int 2))
  else
    .num (jsNumMul (jsToNumber n) (.int 2))

/-- The exercise `pluralize` (lesson lines 149-157): the body is the
ternary `s === undefined ? undefined : s + "s"`, on the domain
`string | undefined` (modelled by `Option String`). -/
def pluralize : Option String → Option String
  | none => none
  | some s => some (s ++ "s")

/-- `const cats: string = pluralize("cat")` of the exercise. -/
def cats : Option String := pluralize (some "cat")

/-- `const dogs: string = pluralize("dog")` of the exercise. -/
def dogs : Option String := pluralize (some "dog")

/-- `const anUndefined: undefined = pluralize(undefined)`. -/
def anUndefined : Option String := pluralize none

end FunctionOverloads

namespace GenericConstraints

/-!  Lesson 3-generic-constraints.ts, first example (lines 3-19). -/

/-- The `User` record of the first `filterBelowAge` example. -/
structure User where
  name : String
  age : Int
deriving DecidableEq

/-- `filterBelowAge` (lesson lines 8-10): keeps the users whose age is
strictly below the limit, via `Array.prototype.filter`. -/
def filterBelowAge (users : List User) (limit : Int) : List User :=
  users.filter fun user => user.age < limit

/-- The documented input array of the example (lines 12-15). -/
def users : List User := [⟨"Amir", 36⟩, ⟨"Gabriel", 7⟩]

/-- `const youngUsers = filterBelowAge(users, 10)` (line 16). -/
def youngUsers : List User := filterBelowAge users 10

end GenericConstraints

namespace HybridTypes

/-!  The hybrid-types lesson (second document of
3-generic-constraints.ts, lines 247-268). -/

/-- The hybrid `Path` type: callable on a string suffix, and carrying a
string property (named prefix in the source; `pfx` here, since that word
is reserved in this development). -/
structure Path where
  toFun : String → String
  pfx : String

/-- `buildPath` (lesson lines 252-259): returns a function building
paths `/pfx/suffix` from the template literal, and stores the path pfx
on the returned function as its property. -/
def buildPath (p : String) : Path :=
  ⟨fun suffix => "/" ++ p ++ "/" ++ suffix, p⟩

end HybridTypes

namespace TypePredicates

/-!  The type-predicates lesson (src/unnamed/part_002). -/

/-- The `Address` record of the lesson. -/
structure Address where
  postalCode : String
  country : String
deriving DecidableEq

/-- The `User` record of the lesson: a name and an optional address. -/
structure User where
  name : String
  address : Option Address
deriving DecidableEq

/-- The `isAddress` type predicate (part_002 lines 88-90): its body is
`address !== undefined`. -/
def isAddress (address : Option Address) : Bool :=
  address != none

/-- The `amir` value of the guarded example (part_002 lines 92-95). -/
def amir : User := ⟨"Amir", some ⟨"75010", "France"⟩⟩

/-- The fallback address assigned in the else branch of the example. -/
def unknownAddress : Address := ⟨"unknown", "unknown"⟩

/-- The `address` produced by the guarded conditional (part_002 lines
100-104): if `isAddress(amir.address)` then `amir.address` (which type
narrowing lets the source use as an `Address`; the match extracts the
same value) else the unknown address. -/
def addressResult : Address :=
  match amir.address, isAddress amir.address with
  | some a, true => a
  | _, _ => unknownAddress

end TypePredicates

namespace TypePredicateBugs

/-!  The buggy-type-predicates lesson (src/unnamed/part_003). -/

/-- The intentionally buggy `isNumber` (part_003 lines 44-46): the body
tests `typeof n === "string"` although the predicate claims
`n is number`. -/
def isNumber (n : JSVal) : Bool :=
  typeof n = "string"

/-- `const n: string = "oh no"` of the buggy example. -/
def n : JSVal := .str "oh no"

/-- `const n2: number = isNumber(n) ? n : 0` (part_003 line 48). -/
def n2 : JSVal :=
  if isNumber n then n else .num (.int 0)

/-- The typeof operator restricted to `string | undefined` values
(modelled by `Option String`). -/
def typeofStrU : Option String → String
  | some _ => "string"
  | none => "undefined"

/-- The exercise `isString` type predicate with its corrected body
(part_003 lines 61-65): `typeof s === "string"`. -/
def isString (s : Option String) : Bool :=
  typeofStrU s = "string"

/-- `const s1: undefined = undefined` of the exercise. -/
def s1 : Option String := none

/-- `const s2: string = isString(s1) ? s1 : "not a string"` (part_003
line 69), as the value of the `string | undefined` union it inhabits. -/
def s2 : Option String :=
  if isString s1 then s1 else some "not a string"

end TypePredicateBugs

/-! ### Helper lemmas -/

theorem count_filter_eq {α : Type} [DecidableEq α] (p : α → Bool) (l : List α)
    (a : α) : (l.filter p).count a = if p a = true then l.count a else 0 := by
  induction l with
  | nil => simp
  | cons x xs ih =>
    by_cases hx : p x = true
    · rw [List.filter_cons_of_pos hx]
      by_cases hxa : x = a
      · subst hxa
        rw [List.count_cons_self, List.count_cons_self, ih, if_pos hx,
          if_pos hx]
      · rw [List.count_cons_of_ne (by exact fun hh => hxa hh.symm),
          List.count_cons_of_ne (by exact fun hh => hxa hh.symm), ih]
    · rw [List.filter_cons_of_neg (by simpa using hx)]
      by_cases hxa : x = a
      · subst hxa
        rw [ih, if_neg hx, if_neg hx]
      · rw [List.count_cons_of_ne (by exact fun hh => hxa hh.symm), ih]

/-! ### The claims -/

/-- Claim C1: the exercise pluralize, whose body is the ternary
(s === undefined ? undefined : s + "s"), appends "s" to every string and
maps undefined to undefined; on the exercise inputs it produces exactly
the stated Goal ["cats", "dogs", undefined]. -/
theorem c1_pluralize_goal :
    (∀ s : String, FunctionOverloads.pluralize (some s) = some (s ++ "s"))
  ∧ FunctionOverloads.pluralize none = none
  ∧ [FunctionOverloads.cats, FunctionOverloads.dogs,
      FunctionOverloads.anUndefined] = [some "cats", some "dogs", none] := by
  refine ⟨fun s => rfl, rfl, by decide⟩

/-- Claim C2: the buggy overloaded double, whose string branch omits
toString, turns the string "6" into the number 12 at runtime, matching
the declared Result of the snippet even though the variable is statically
declared a string. -/
theorem c2_doubleBuggy_result :
    FunctionOverloads.doubleBuggy (.str "6") = .num (.int 12)
  ∧ typeof (FunctionOverloads.doubleBuggy (.str "6")) = "number" := by
  constructor <;> decide

/-- Claim C3: the intentionally buggy isNumber predicate, whose body
tests typeof n === "string", answers true on the string "oh no", so the
ternary (isNumber(n) ? n : 0) evaluates to the string "oh no", matching
the declared Result. -/
theorem c3_isNumber_bug_result :
    TypePredicateBugs.isNumber (.str "oh no") = true
  ∧ TypePredicateBugs.n2 = .str "oh no" := by
  constructor <;> decide

/-- Claim C4: the snippet (let sum: number = 1 + 1; sum;) type checks
and evaluates to exactly the literal 2. -/
theorem c4_sum_result :
    checkLetDecl .number sumExpr = .ok .number
  ∧ evalT sumExpr = some (.num (.int 2)) := by
  exact ⟨rfl, by decide⟩

/-- Claim C5: compiling the snippet (let sum: number = "any" + "thing";)
fails, and the diagnostic is the structured form of the text: Type
(string) is not assignable to type (number). -/
theorem c5_sum_type_error :
    checkLetDecl .number anyThingExpr
      = .error (.notAssignable .string .number) := by
  rfl

/-- Claim C6: filterBelowAge keeps exactly the users whose age is
strictly below the limit, with multiplicity, in the original order (the
result is a sublist of the input); on the documented input with limit 10
the names of the result are exactly ["Gabriel"]. -/
theorem c6_filterBelowAge_spec :
    (∀ (us : List GenericConstraints.User) (limit : Int),
        (GenericConstraints.filterBelowAge us limit).Sublist us)
  ∧ (∀ (us : List GenericConstraints.User) (limit : Int)
        (u : GenericConstraints.User),
        (GenericConstraints.filterBelowAge us limit).count u
          = if u.age < limit then us.count u else 0)
  ∧ GenericConstraints.youngUsers.map GenericConstraints.User.name
      = ["Gabriel"] := by
  refine ⟨fun us limit => List.filter_sublist _, fun us limit u => ?_, by decide⟩
  rw [GenericConstraints.filterBelowAge, count_filter_eq]
  simp

/-- Claim C7: the exercise isString predicate with the corrected body
(typeof s === "string") answers false on the undefined value s1, so the
ternary picks the fallback and s2 evaluates to exactly the string
"not a string", identical to the stated Goal. -/
theorem c7_isString_goal :
    TypePredicateBugs.isString TypePredicateBugs.s1 = false
  ∧ TypePredicateBugs.s2 = some "not a string" := by
  constructor <;> decide

/-- Claim C8: for every prefix string p and suffix string, the value
returned by buildPath p carries p as its stored property and maps the
suffix to the path built from the template literal; in particular
buildPath "courses" gives the pair ("courses", "/courses/regexes") on the
suffix "regexes". -/
theorem c8_buildPath_spec :
    (∀ p : String, (HybridTypes.buildPath p).pfx = p)
  ∧ (∀ p sfx : String,
        (HybridTypes.buildPath p).toFun sfx = "/" ++ p ++ "/" ++ sfx)
  ∧ ((HybridTypes.buildPath "courses").pfx,
      (HybridTypes.buildPath "courses").toFun "regexes")
      = ("courses", "/courses/regexes") := by
  refine ⟨fun p => rfl, fun p sfx => rfl, by decide⟩

/-- Claim C9: the correct overloaded double doubles every number; on a
string it returns the decimal rendering of Number(s) * 2, so the runtime
type of the result always matches the runtime type of the argument, and
whenever s parses as a number n, the result is the rendering of 2 * n
and converts back to the number 2 * n. -/
theorem c9_double_spec :
    (∀ i : Int, FunctionOverloads.double (.num (.int i)) = .num (.int (2 * i)))
  ∧ (∀ m : JSNum,
        typeof (FunctionOverloads.double (.num m)) = typeof (JSVal.num m))
  ∧ (∀ s : String,
        typeof (FunctionOverloads.double (.str s)) = typeof (JSVal.str s))
  ∧ (∀ s : String,
        FunctionOverloads.double (.str s)
          = .str (JSNum.render (jsNumMul (jsNumber s) (.int 2))))
  ∧ (∀ (s : String) (n : Nat), parseNat? s = some n →
        jsNumber s = JSNum.int (n : Int)
      ∧ FunctionOverloads.double (.str s) = .str (renderNat (2 * n))
      ∧ jsToNumber (FunctionOverloads.double (.str s))
          = JSNum.int ((2 * n : Nat) : Int)) := by
  refine ⟨fun i => ?_, fun m => rfl, fun s => rfl, fun s => rfl, ?_⟩
  · simp [FunctionOverloads.double, typeof, jsToNumber, jsNumMul, Int.mul_comm]
  · intro s n h
    have h1 : jsNumber s = JSNum.int (n : Int) := by rw [jsNumber, h]
    have h2 : jsNumMul (jsNumber s) (.int 2) = JSNum.int ((2 * n : Nat) : Int) := by
      rw [h1]
      simp [jsNumMul]
      ring
    have h3 : FunctionOverloads.double (.str s) = .str (renderNat (2 * n)) := by
      show JSVal.str (JSNum.render (jsNumMul (jsNumber s) (.int 2)))
          = .str (renderNat (2 * n))
      rw [h2, render_int_ofNat]
    refine ⟨h1, h3, ?_⟩
    rw [h3]
    show jsNumber (renderNat (2 * n)) = JSNum.int ((2 * n : Nat) : Int)
    exact jsNumber_renderNat (2 * n)

/-- Witness for claim C9 at the concrete input of the lesson: the string
"6" parses as 6, Number("6") is 6, double("6") is the rendering of 12,
and converting the result back gives the number 12. -/
theorem c9_double_spec_witness :
    parseNat? "6" = some 6
  ∧ (jsNumber "6" = JSNum.int ((6 : Nat) : Int)
      ∧ FunctionOverloads.double (.str "6") = .str (renderNat (2 * 6))
      ∧ jsToNumber (FunctionOverloads.double (.str "6"))
          = JSNum.int ((2 * 6 : Nat) : Int)) :=
  ⟨by decide, c9_double_spec.2.2.2.2 "6" 6 (by decide)⟩

/-- Claim C10: the isAddress type predicate, whose body is
(address !== undefined), answers true exactly on present addresses; in
the guarded conditional of the lesson the then branch is taken because
the address of amir is present, and the evaluation yields "75010". -/
theorem c10_isAddress_spec :
    (∀ a : Option TypePredicates.Address,
        TypePredicates.isAddress a = true ↔ a ≠ none)
  ∧ TypePredicates.isAddress TypePredicates.amir.address = true
  ∧ TypePredicates.addressResult.postalCode = "75010" := by
  refine ⟨fun a => ?_, by decide, by decide⟩
  cases a <;> simp [TypePredicates.isAddress]
